import Mathlib

/-!
# Verification of the Proxmox VE API client core

A shallow embedding of the authenticated HTTP client core of the
`babbage88/proxmox` Go library (package `proxmox`), together with proofs
about its credential lifecycle, request pipeline, response unwrapping and
resource operations.

Modelling conventions:
* Go strings are Lean `String`s; byte-level operations (URL escaping) go
  through an explicit UTF-8 encoder.
* `map[string]T` with `Set`-style insertion is modelled as an association
  list with replace-or-append insertion; a `nil` Go map is `Option.none`
  where the nil/empty distinction matters.
* JSON documents are an inductive `Json`; `encoding/json` decoding of the
  specific wrapper structs used by the source is transcribed case by case,
  including the documented rule that decoding a JSON `null` is a no-op.
* Time is an integer clock in seconds: `time.Now()` becomes an explicit
  `now : Int` parameter, `time.Since(t) = now - t`, and the one-hour
  `loginExpiry` is 3600.
* The network is an oracle: each function that performs an HTTP round trip
  takes the wire response as a parameter and also returns the list of
  requests it dispatched, in order, so that "which calls were made" is a
  provable statement.
-/

set_option linter.unusedVariables false

namespace ProxmoxClient

/-- A JSON document. Object fields are kept in textual order; Go's
`encoding/json` gives the *last* occurrence of a duplicated key, which the
lookup below mirrors. Numbers are kept as their literal text (the client
never does arithmetic on them). -/
inductive Json where
  | null
  | boolVal (b : Bool)
  | num (s : String)
  | str (s : String)
  | arr (elems : List Json)
  | obj (fields : List (String × Json))

/-- Field lookup with `encoding/json` duplicate-key semantics: the last
binding of the key wins. -/
def lookupLast (k : String) : List (String × Json) → Option Json
  | [] => none
  | (k', v) :: rest =>
    match lookupLast k rest with
    | some r => some r
    | none => if k' = k then some v else none

/-- The raw bytes of an HTTP response body, abstracted to the three cases
the client distinguishes: empty (`len(bodyBytes) == 0`), non-empty but not
valid JSON, and non-empty valid JSON. -/
inductive RawBody where
  | empty
  | invalid (raw : String)
  | valid (j : Json)

/-- An HTTP cookie, as far as the client looks at one (`net/http.Cookie`
restricted to the fields the source reads). -/
structure Cookie where
  name : String
  value : String
deriving DecidableEq

/-- An outbound HTTP request as the client builds it. The form body of a
write request is kept as its key/value pairs (`url.Values.Encode` is the
form encoding of exactly these pairs). -/
structure HttpRequest where
  method : String
  url : String
  headers : List (String × String)
  formBody : Option (List (String × String))
deriving DecidableEq

/-- An inbound HTTP response, reduced to what `do` inspects. -/
structure HttpResponse where
  status : Nat
  body : RawBody

/-- The response to the login round trip (`do` never reads cookies, `Login`
does). -/
structure LoginResponse where
  status : Nat
  body : RawBody
  cookies : List Cookie

/-- `http.Header.Set` / `url.Values.Set`: replace the value of an existing
key, else append the pair. -/
def setKV : List (String × String) → String → String → List (String × String)
  | [], k, v => [(k, v)]
  | (k', v') :: rest, k, v =>
    if k' = k then (k, v) :: rest else (k', v') :: setKV rest k v

/-- Header lookup (first match; `setKV`-built lists have unique keys). -/
def getKV (hs : List (String × String)) (k : String) : Option String :=
  (hs.find? (fun kv => kv.1 = k)).map (fun kv => kv.2)

/-- The client's authentication mode (`AuthMethod`). -/
inductive AuthMethod where
  | password
  | token
deriving DecidableEq

/-- The mutable credential state of a `Client`: `authTicket`, `csrfToken`,
`authCookie`, `lastLogin`. The Go zero value (fresh client) is the default
value here. -/
structure CredState where
  authTicket : String := ""
  csrfToken : String := ""
  authCookie : Option Cookie := none
  lastLogin : Int := 0
deriving DecidableEq

/-- The immutable part of a `Client`: configuration fixed at construction.
`insecureSkipVerify` and `timeoutSeconds` record what `newClient` put into
the HTTP transport. -/
structure ClientCfg where
  baseURL : String
  authMethod : AuthMethod
  username : String
  password : String
  insecureSkipVerify : Bool
  timeoutSeconds : Nat
  loginExpiry : Int
deriving DecidableEq

/-- `strings.TrimRight(base, "/")`. -/
def trimTrailingSlashes (s : String) : String :=
  String.mk ((s.data.reverse.dropWhile (fun c => c = '/')).reverse)

/-- `newClient`: validate the base URL and build the client. `url.Parse`
is modelled as accepting every non-empty string (the Go function rejects
only malformed control/escape sequences, which no claim exercises); the
transport gets a 60-second timeout and `InsecureSkipVerify` set from the
`ignoreTlsError` argument, and `loginExpiry` is one hour. -/
def newClient (base username password : String) (method : AuthMethod)
    (ignoreTlsError : Bool) : Except String ClientCfg :=
  if base = "" then
    .error "base URL required"
  else
    .ok
      { baseURL := trimTrailingSlashes base
        authMethod := method
        username := username
        password := password
        insecureSkipVerify := ignoreTlsError
        timeoutSeconds := 60
        loginExpiry := 3600 }

/-- `NewClient`: picks the auth method from `useToken` and calls
`newClient`. Note the source passes the literal `true` for
`ignoreTlsError`; the `tlsCfg` argument is not used. -/
def NewClient (base username password : String) (tlsCfg : Bool)
    (useToken : Bool) : Except String ClientCfg :=
  newClient base username password
    (if useToken then AuthMethod.token else AuthMethod.password) true

/-- `NewClientPassword` (also passes the literal `true`). -/
def NewClientPassword (base username password : String) (tlsCfg : Bool) :
    Except String ClientCfg :=
  newClient base username password AuthMethod.password true

/-- `NewClientToken` (also passes the literal `true`). -/
def NewClientToken (base tokenID secret : String) (tlsCfg : Bool) :
    Except String ClientCfg :=
  newClient base tokenID secret AuthMethod.token true

/-- UTF-8 bytes of one code point (how Go ranges over `[]byte(s)`). -/
def utf8Bytes (c : Char) : List Nat :=
  let n := c.toNat
  if n < 128 then [n]
  else if n < 2048 then [192 + n / 64, 128 + n % 64]
  else if n < 65536 then [224 + n / 4096, 128 + (n / 64) % 64, 128 + n % 64]
  else [240 + n / 262144, 128 + (n / 4096) % 64, 128 + (n / 64) % 64, 128 + n % 64]

/-- The UTF-8 byte sequence of a string. -/
def stringUTF8 (s : String) : List Nat :=
  s.data.flatMap utf8Bytes

/-- RFC 3986 unreserved bytes: alphanumerics and `-`, `.`, `_`, `~`. -/
def isUnreservedByte (b : Nat) : Bool :=
  (97 ≤ b && b ≤ 122) || (65 ≤ b && b ≤ 90) || (48 ≤ b && b ≤ 57) ||
    b = 45 || b = 46 || b = 95 || b = 126

/-- `net/url.shouldEscape` for mode `encodePathSegment` (the mode used by
`url.PathEscape`): unreserved bytes and the reserved sub-delims
`$ & + : = @` pass through; `/ ; , ?` and every other byte are escaped. -/
def shouldEscapeSegByte (b : Nat) : Bool :=
  if isUnreservedByte b then false
  else if b = 36 || b = 38 || b = 43 || b = 58 || b = 61 || b = 64 then false
  else true

/-- Upper-case hexadecimal digit, as `net/url` emits (`"0123456789ABCDEF"`). -/
def upperHexDigit (n : Nat) : Char :=
  if n < 10 then Char.ofNat (48 + n) else Char.ofNat (55 + n)

/-- Percent-escape a single byte when required. -/
def escapeSegByte (b : Nat) : List Char :=
  if shouldEscapeSegByte b then
    ['%', upperHexDigit (b / 16), upperHexDigit (b % 16)]
  else
    [Char.ofNat b]

/-- `url.PathEscape`: escape a string so it can be placed inside a URL path
segment. -/
def pathEscape (s : String) : String :=
  String.mk ((stringUTF8 s).flatMap escapeSegByte)

/-! ## Error taxonomy and response unwrapping (`do`) -/

/-- Every error the embedded client core can return. `apiError` carries the
HTTP status and the best-effort errors map, where `none` is Go's nil map
(left untouched by a failed or fruitless parse) and `some l` a map that was
actually populated by the error-body parse (possibly empty). -/
inductive ClientErr where
  | apiError (status : Nat) (errors : Option (List (String × Json)))
  | invalidJSON
  | decodeData (msg : String)
  | opError (msg : String)
  | loginFailed (status : Nat)
  | loginDecode

/-- The `status >= 400` arm of `do`: `json.Unmarshal(bodyBytes, &wrapper)`
into `struct { Errors map[string]interface{} }`, with the error ignored.
The `Errors` field (nil-initialised) becomes non-nil exactly when the body
is a JSON object whose last `errors` field is itself an object. -/
def parseErrors : RawBody → Option (List (String × Json))
  | .valid (.obj fields) =>
    match lookupLast "errors" fields with
    | some (.obj errs) => some errs
    | _ => none
  | _ => none

/-- `json.Unmarshal(bodyBytes, &wrapper)` into
`struct { Data json.RawMessage }`: the top level must be an object (field
lookup) or `null` (no-op); anything else is a decode error (`none`). The
inner option is the captured `Data` raw message, `none` when the field is
absent (`len(wrapper.Data) == 0`). -/
def envelopeData : Json → Option (Option Json)
  | Json.null => some none
  | Json.obj fields => some (lookupLast "data" fields)
  | _ => none

/-- `json.Unmarshal(wrapper.Data, out)` for a caller-supplied target:
`encoding/json` documents that unmarshalling a JSON `null` into a value is
a no-op producing no error; any other payload is decoded by the target
type's decoder `dec`, which reports a shape mismatch as `.error`. -/
def unmarshalInto {α : Type} (dec : Json → α → Except String α) (v : Json)
    (cur : α) : Except String α :=
  match v with
  | Json.null => .ok cur
  | _ => dec v cur

/-- The response-processing tail of `do` (everything after
`io.ReadAll(resp.Body)`): status check, error envelope, data envelope. -/
def doUnwrap {α : Type} (dec : Json → α → Except String α) (status : Nat)
    (body : RawBody) (out : Option α) : Except ClientErr (Option α) :=
  if 400 ≤ status then
    .error (.apiError status (parseErrors body))
  else
    match out with
    | none => .ok none
    | some cur =>
      match body with
      | .empty => .ok (some cur)
      | .invalid _ => .error .invalidJSON
      | .valid j =>
        match envelopeData j with
        | none => .error .invalidJSON
        | some none => .ok (some cur)
        | some (some v) =>
          match unmarshalInto dec v cur with
          | .ok a => .ok (some a)
          | .error e => .error (.decodeData e)

/-! ## Request building (`do`) -/

/-- The "Authentication" block of `do`: in token mode a single
`Authorization` header; in password mode the CSRF header when requested
and the token is non-empty, then the session cookie if present, else a raw
cookie header carrying the ticket. `req.AddCookie` on a request with no
prior cookies sets the `Cookie` header to `name=value`. -/
def authHeaders (c : ClientCfg) (st : CredState) (csrf : Bool) :
    List (String × String) :=
  if c.authMethod = AuthMethod.token then
    setKV [] "Authorization" ("PVEAPIToken=" ++ c.username ++ "=" ++ c.password)
  else
    let h1 :=
      if csrf ∧ st.csrfToken ≠ "" then
        setKV [] "CSRFPreventionToken" st.csrfToken
      else []
    match st.authCookie with
    | some ck => setKV h1 "Cookie" (ck.name ++ "=" ++ ck.value)
    | none =>
      if st.authTicket ≠ "" then
        setKV h1 "Cookie" ("PVEAuthCookie=" ++ st.authTicket)
      else h1

/-- The request-building head of `do`: URL join, auth attachment, `Accept`
header, then the caller's extra headers via `Header.Set`. -/
def buildDoRequest (c : ClientCfg) (st : CredState) (method path : String)
    (body : Option (List (String × String)))
    (extra : List (String × String)) (csrf : Bool) : HttpRequest :=
  let url := c.baseURL ++ path
  let h2 := setKV (authHeaders c st csrf) "Accept" "application/json"
  let h3 := extra.foldl (fun hs kv => setKV hs kv.1 kv.2) h2
  { method := method, url := url, headers := h3, formBody := body }

/-- The observable outcome of one `do` invocation: the HTTP requests it
dispatched (always exactly the one it built — `do` performs no login and
no retry), the returned value or error, and the credential state afterwards
(`do` never writes it). -/
structure DoOutcome (α : Type) where
  requests : List HttpRequest
  result : Except ClientErr (Option α)
  state : CredState

/-- `do`: method, path, body, extra headers, CSRF flag, decode target;
the wire response is the oracle parameter. -/
def clientDo {α : Type} (dec : Json → α → Except String α) (c : ClientCfg)
    (st : CredState) (method path : String)
    (body : Option (List (String × String)))
    (extra : List (String × String)) (csrf : Bool) (resp : HttpResponse)
    (out : Option α) : DoOutcome α :=
  { requests := [buildDoRequest c st method path body extra csrf]
    result := doUnwrap dec resp.status resp.body out
    state := st }

/-! ## Login -/

/-- Credential-state validity as `Login` tests it:
`time.Since(c.lastLogin) < c.loginExpiry && c.authTicket != ""`. -/
def credValidb (st : CredState) (now : Int) (expiry : Int) : Bool :=
  decide (now - st.lastLogin < expiry) && decide (st.authTicket ≠ "")

/-- The login HTTP request: form-POST of the credentials to the ticket
endpoint. -/
def loginRequest (c : ClientCfg) : HttpRequest :=
  { method := "POST"
    url := c.baseURL ++ "/api2/json/access/ticket"
    headers := [("Content-Type", "application/x-www-form-urlencoded")]
    formBody := some [("username", c.username), ("password", c.password)] }

/-- Decoding a string-typed struct field: absent or `null` leaves the zero
value, a string is taken verbatim, any other shape is a decode error. -/
def decodeStringField (fields : List (String × Json)) (k : String) :
    Option String :=
  match lookupLast k fields with
  | none => some ""
  | some Json.null => some ""
  | some (Json.str s) => some s
  | some _ => none

/-- `json.NewDecoder(resp.Body).Decode(&v)` for
`struct { Data struct { Ticket, CSRFPreventionToken string } }`:
`none` is a decode error (including an empty body, which is `io.EOF`).
Unknown fields are ignored; `null` at any level is a no-op. -/
def decodeLoginBody : RawBody → Option (String × String)
  | .empty => none
  | .invalid _ => none
  | .valid Json.null => some ("", "")
  | .valid (Json.obj fields) =>
    match lookupLast "data" fields with
    | none => some ("", "")
    | some Json.null => some ("", "")
    | some (Json.obj dfields) =>
      match decodeStringField dfields "ticket",
          decodeStringField dfields "CSRFPreventionToken" with
      | some t, some k => some (t, k)
      | _, _ => none
    | some _ => none
  | .valid _ => none

/-- The cookie scan in `Login`: first response cookie named
`PVEAuthCookie`. -/
def findAuthCookie (cs : List Cookie) : Option Cookie :=
  cs.find? (fun ck => ck.name = "PVEAuthCookie")

/-- The observable outcome of one `Login` invocation. -/
structure LoginOutcome where
  result : Except ClientErr Unit
  state : CredState
  requests : List HttpRequest

/-- `Login`: a no-op in token mode; in password mode, skip while the
credential state is still valid, otherwise perform the login call and, on
a 200 with a decodable body, install ticket, CSRF token, auth cookie and
the current time. On failure the state is returned unchanged. -/
def loginStep (c : ClientCfg) (st : CredState) (now : Int)
    (resp : LoginResponse) : LoginOutcome :=
  if c.authMethod = AuthMethod.token then
    { result := .ok (), state := st, requests := [] }
  else if credValidb st now c.loginExpiry then
    { result := .ok (), state := st, requests := [] }
  else
    let req := loginRequest c
    if resp.status ≠ 200 then
      { result := .error (.loginFailed resp.status), state := st
        requests := [req] }
    else
      match decodeLoginBody resp.body with
      | none =>
        { result := .error .loginDecode, state := st, requests := [req] }
      | some (ticket, csrfTok) =>
        { result := .ok ()
          state :=
            { authTicket := ticket
              csrfToken := csrfTok
              authCookie := findAuthCookie resp.cookies
              lastLogin := now }
          requests := [req] }

/-! ## Resource operations (`vm.go`) -/

/-- Path constants from `client.go`. -/
def apiRootPath : String := "/api2/json"

def apiClusterResourcesPath : String := "/api2/json/cluster/resources"

def apiNodesPath : String := "/api2/json/nodes"

def apiVmStartSubPath : String := "/status/start"

def apiVmStopSubPath : String := "/status/stop"

/-- `ProxmoxQemuVmConfig`. `json.Number` fields are their literal text;
the `Raw` map is an association list with `Set`-style insertion. The Go
zero value is the default value. -/
structure ProxmoxQemuVmConfig where
  name : String := ""
  vmid : String := ""
  memoryMB : String := ""
  sockets : String := ""
  cores : String := ""
  description : String := ""
  raw : List (String × String) := []
deriving DecidableEq

/-- `ToParams`: the non-empty typed fields followed by the non-empty `Raw`
entries, inserted with `url.Values.Set`. -/
def toParams (cfg : ProxmoxQemuVmConfig) : List (String × String) :=
  let p0 : List (String × String) := []
  let p1 := if cfg.name ≠ "" then setKV p0 "name" cfg.name else p0
  let p2 := if cfg.memoryMB ≠ "" then setKV p1 "memory" cfg.memoryMB else p1
  let p3 := if cfg.sockets ≠ "" then setKV p2 "sockets" cfg.sockets else p2
  let p4 := if cfg.cores ≠ "" then setKV p3 "cores" cfg.cores else p3
  let p5 :=
    if cfg.description ≠ "" then setKV p4 "description" cfg.description else p4
  cfg.raw.foldl (fun ps kv => if kv.2 ≠ "" then setKV ps kv.1 kv.2 else ps) p5

/-- One invocation of the request pipeline as a resource operation prepares
it: the arguments the operation passes to `do`. -/
structure PipelineCall where
  method : String
  path : String
  body : Option (List (String × String))
  headers : List (String × String)
  csrf : Bool
  hasOut : Bool
deriving DecidableEq

/-- `CreateVM`: nil-config and non-positive-vmid guards, then a form POST
to `/api2/json/nodes/<node escaped>/qemu` with `csrf` set to `true`. -/
def createVMCall (node : String) (vmid : Int)
    (cfg : Option ProxmoxQemuVmConfig) : Except ClientErr PipelineCall :=
  match cfg with
  | none => .error (.opError "VMConfigTyped cannot be nil")
  | some cfg =>
    if vmid ≤ 0 then .error (.opError ("invalid VMID: " ++ toString vmid))
    else
      .ok
        { method := "POST"
          path := apiNodesPath ++ "/" ++ pathEscape node ++ "/qemu"
          body := some (setKV (toParams cfg) "vmid" (toString vmid))
          headers := [("Content-Type", "application/x-www-form-urlencoded")]
          csrf := true
          hasOut := false }

/-- `GetVMConfig`'s pipeline call: GET of the config path, no CSRF, with a
decode target. -/
def getVMConfigCall (node : String) (vmid : Int) : PipelineCall :=
  { method := "GET"
    path := apiNodesPath ++ "/" ++ pathEscape node ++ "/qemu/" ++
      toString vmid ++ "/config"
    body := none
    headers := []
    csrf := false
    hasOut := true }

/-- `StartVM`'s pipeline call: POST of the start path with `csrf := false`
(the literal `false` in the source). -/
def startVMCall (node : String) (vmid : Int) : PipelineCall :=
  { method := "POST"
    path := apiNodesPath ++ "/" ++ pathEscape node ++ "/qemu/" ++
      toString vmid ++ apiVmStartSubPath
    body := none
    headers := []
    csrf := false
    hasOut := true }

/-- `StopVM`'s pipeline call: POST of the stop path with `csrf := false`. -/
def stopVMCall (node : String) (vmid : Int) : PipelineCall :=
  { method := "POST"
    path := apiNodesPath ++ "/" ++ pathEscape node ++ "/qemu/" ++
      toString vmid ++ apiVmStopSubPath
    body := none
    headers := []
    csrf := false
    hasOut := true }

/-- `UpdateVMConfig`: nil-config guard, then a form PUT of the config path
with `csrf := true`. -/
def updateVMConfigCall (node : String) (vmid : Int)
    (cfg : Option ProxmoxQemuVmConfig) : Except ClientErr PipelineCall :=
  match cfg with
  | none => .error (.opError "VMConfigTyped cannot be nil")
  | some cfg =>
    .ok
      { method := "PUT"
        path := apiNodesPath ++ "/" ++ pathEscape node ++ "/qemu/" ++
          toString vmid ++ "/config"
        body := some (toParams cfg)
        headers := [("Content-Type", "application/x-www-form-urlencoded")]
        csrf := true
        hasOut := false }

/-- Run a prepared pipeline call through `do`; an operation that failed its
argument checks dispatches no request and leaves the state alone. -/
def runCall {α : Type} (dec : Json → α → Except String α) (c : ClientCfg)
    (st : CredState) (ec : Except ClientErr PipelineCall)
    (resp : HttpResponse) (out : Option α) : DoOutcome α :=
  match ec with
  | .error e => { requests := [], result := .error e, state := st }
  | .ok pc => clientDo dec c st pc.method pc.path pc.body pc.headers pc.csrf resp out

/-- `ListVMs` builds its request by hand instead of going through `do`:
the node name is interpolated into the URL without escaping, and the
password branch sets the raw cookie and CSRF headers unconditionally. -/
def listVMsRequest (c : ClientCfg) (st : CredState) (node : String)
    (full : Bool) : HttpRequest :=
  let fullInt : Nat := if full then 1 else 0
  let url := c.baseURL ++ "/api2/json/nodes/" ++ node ++ "/qemu?full=" ++
    toString fullInt
  let headers :=
    if c.authMethod = AuthMethod.token then
      setKV [] "Authorization" ("PVEAPIToken=" ++ c.username ++ "=" ++ c.password)
    else
      setKV (setKV [] "Cookie" ("PVEAuthCookie=" ++ st.authTicket))
        "CSRFPreventionToken" st.csrfToken
  { method := "GET", url := url, headers := headers, formBody := none }

/-! ## One client lifetime as a step sequence -/

/-- One externally visible client action touching credential state: an
explicit `Login`, or a request through `do`. -/
inductive ClientStep where
  | login (now : Int) (resp : LoginResponse)
  | request (method path : String) (body : Option (List (String × String)))
      (extra : List (String × String)) (csrf : Bool) (resp : HttpResponse)
      (out : Option Unit)

/-- The credential state after one step. -/
def stepState (c : ClientCfg) (st : CredState) : ClientStep → CredState
  | .login now resp => (loginStep c st now resp).state
  | .request method path body extra csrf resp out =>
    (clientDo (fun _ u => Except.ok u) c st method path body extra csrf
      resp out).state

/-- The credential state after a sequence of steps. -/
def execSteps (c : ClientCfg) (st : CredState) : List ClientStep → CredState
  | [] => st
  | s :: rest => execSteps c (stepState c st s) rest

/-! ## The VM-config field mapping (`GetVMConfig` and `ParseQemuVmConfig`) -/

/-- A dynamic Go value (`any`) as the two field-mapping loops see one.
Float renderings are abstract: a `float64` carries its `%.0f` and `%v`
renderings, an unexpected type its `%v` rendering, so the model never
computes floating point. -/
inductive GoVal where
  | jsonNum (s : String)
  | intVal (n : Int)
  | floatVal (fmtPrec0 : String) (fmtV : String)
  | strVal (s : String)
  | boolVal (b : Bool)
  | nilVal
  | otherVal (fmtV : String)

/-- `fmt.Sprintf("%v", v)`. -/
def sprintfV : GoVal → String
  | .jsonNum s => s
  | .intVal n => toString n
  | .floatVal _ fv => fv
  | .strVal s => s
  | .boolVal true => "true"
  | .boolVal false => "false"
  | .nilVal => "<nil>"
  | .otherVal fv => fv

/-- `toJSONNumber` (`vm.go`): `json.Number` and strings pass through, ints
via `strconv.Itoa`, `float64` via `fmt.Sprintf("%.0f", t)`, every other
type becomes the empty number. -/
def toJSONNumber : GoVal → String
  | .jsonNum s => s
  | .intVal n => toString n
  | .floatVal f0 _ => f0
  | .strVal s => s
  | _ => ""

/-- The field-mapping loop inlined in `GetVMConfig` (`vm.go` lines 77-93),
over the decoded raw map in iteration order. -/
def getVMConfigFold (raw : List (String × GoVal)) : ProxmoxQemuVmConfig :=
  raw.foldl
    (fun cfg kv =>
      if kv.1 = "name" then { cfg with name := sprintfV kv.2 }
      else if kv.1 = "memory" then { cfg with memoryMB := toJSONNumber kv.2 }
      else if kv.1 = "sockets" then { cfg with sockets := toJSONNumber kv.2 }
      else if kv.1 = "cores" then { cfg with cores := toJSONNumber kv.2 }
      else if kv.1 = "description" then
        { cfg with description := sprintfV kv.2 }
      else { cfg with raw := setKV cfg.raw kv.1 (sprintfV kv.2) })
    {}

/-- The standalone `ParseQemuVmConfig` (`src/unnamed/part_000` lines
42-61), transcribed from its own source site. -/
def ParseQemuVmConfig (raw : List (String × GoVal)) : ProxmoxQemuVmConfig :=
  raw.foldl
    (fun cfg kv =>
      if kv.1 = "name" then { cfg with name := sprintfV kv.2 }
      else if kv.1 = "memory" then { cfg with memoryMB := toJSONNumber kv.2 }
      else if kv.1 = "sockets" then { cfg with sockets := toJSONNumber kv.2 }
      else if kv.1 = "cores" then { cfg with cores := toJSONNumber kv.2 }
      else if kv.1 = "description" then
        { cfg with description := sprintfV kv.2 }
      else { cfg with raw := setKV cfg.raw kv.1 (sprintfV kv.2) })
    {}

/-! ## Concrete fixtures for witnesses and counterexamples -/

/-- A password-mode client as `newClient` builds one. -/
def sampleCfgPwd : ClientCfg :=
  { baseURL := "https://pve:8006"
    authMethod := AuthMethod.password
    username := "root@pam"
    password := "pw"
    insecureSkipVerify := true
    timeoutSeconds := 60
    loginExpiry := 3600 }

/-- A token-mode client as `newClient` builds one. -/
def sampleCfgTok : ClientCfg :=
  { baseURL := "https://pve:8006"
    authMethod := AuthMethod.token
    username := "root@pam!mytok"
    password := "secret"
    insecureSkipVerify := true
    timeoutSeconds := 60
    loginExpiry := 3600 }

/-- A populated credential state (as left by a successful login). -/
def sampleStAuth : CredState :=
  { authTicket := "TICKET"
    csrfToken := "CSRFTOK"
    authCookie := none
    lastLogin := 0 }

/-- A sample decode target: a `Nat` decoded from a JSON number literal's
length, failing on any other shape. -/
def decSample : Json → Nat → Except String Nat :=
  fun j _ =>
    match j with
    | .num s => .ok s.length
    | _ => .error "shape"

/-- A trivial decode target for calls whose result is irrelevant. -/
def decUnit : Json → Unit → Except String Unit :=
  fun _ u => .ok u

/-! ## Helper lemmas about `Set`-style insertion -/

theorem getKV_setKV_self (hs : List (String × String)) (k v : String) :
    getKV (setKV hs k v) k = some v := by
  induction hs with
  | nil => simp [setKV, getKV, List.find?]
  | cons kv rest ih =>
    by_cases h : kv.1 = k
    · simp [setKV, getKV, List.find?, h]
    · obtain ⟨k', v'⟩ := kv
      simp only at h
      simp only [setKV, if_neg h]
      simpa [getKV, List.find?, h] using ih

theorem getKV_setKV_other (hs : List (String × String)) (k k' v : String)
    (h : k' ≠ k) : getKV (setKV hs k' v) k = getKV hs k := by
  induction hs with
  | nil => simp [setKV, getKV, List.find?, h]
  | cons kv rest ih =>
    obtain ⟨k₀, v₀⟩ := kv
    by_cases h0 : k₀ = k'
    · subst h0
      simp [setKV, getKV, List.find?, h]
    · simp only [setKV, if_neg h0]
      by_cases h1 : k₀ = k
      · simp [getKV, List.find?, h1]
      · simpa [getKV, List.find?, h1] using ih

theorem getKV_foldl_setKV (extra : List (String × String))
    (hs : List (String × String)) (k : String)
    (h : ∀ kv ∈ extra, kv.1 ≠ k) :
    getKV (extra.foldl (fun acc kv => setKV acc kv.1 kv.2) hs) k =
      getKV hs k := by
  induction extra generalizing hs with
  | nil => rfl
  | cons kv rest ih =>
    have hk : kv.1 ≠ k := h kv (List.mem_cons_self kv rest)
    have hrest : ∀ kv' ∈ rest, kv'.1 ≠ k := by
      intro kv' hmem
      exact h kv' (List.mem_cons_of_mem kv hmem)
    simp only [List.foldl_cons]
    rw [ih (setKV hs kv.1 kv.2) hrest, getKV_setKV_other hs k kv.1 kv.2 hk]

/-! ## Claim theorems -/

/-- **C2** (code bug): client construction does *not* honour the
caller-supplied TLS-verification-skip flag. Whatever `tlsCfg` the caller
passes to `NewClient`, every successfully constructed client has
`InsecureSkipVerify = true`, because `newClient` is invoked with the
literal `true`: the trust decision is silently defaulted to insecure. -/
theorem C2_insecure_skip_verify_hardcoded (base username password : String)
    (tlsCfg useToken : Bool) (c : ClientCfg)
    (h : NewClient base username password tlsCfg useToken = .ok c) :
    c.insecureSkipVerify = true := by
  unfold NewClient newClient at h
  split at h
  · exact Except.noConfusion h
  · injection h with h
    subst h
    rfl

/-- **C2** witness: the concrete client built with `tlsCfg = false` still
skips TLS verification. -/
theorem C2_witness :
    ({ baseURL := "https://pve:8006"
       authMethod := AuthMethod.password
       username := "root@pam"
       password := "pw"
       insecureSkipVerify := true
       timeoutSeconds := 60
       loginExpiry := 3600 } : ClientCfg).insecureSkipVerify = true :=
  C2_insecure_skip_verify_hardcoded "https://pve:8006" "root@pam" "pw"
    false false _ rfl

/-- **C9**: `CreateVM` fails fast — dispatching no HTTP request and leaving
credential state untouched — when its config argument is nil or when
`vmid <= 0`, and `UpdateVMConfig` fails fast when its config argument is
nil. -/
theorem C9_argument_guards_fail_without_request {α : Type}
    (dec : Json → α → Except String α) (c : ClientCfg) (st : CredState)
    (resp : HttpResponse) (out : Option α) (node : String) (vmid : Int)
    (cfg : ProxmoxQemuVmConfig) :
    (runCall dec c st (createVMCall node vmid none) resp out =
      { requests := []
        result := .error (.opError "VMConfigTyped cannot be nil")
        state := st }) ∧
    (vmid ≤ 0 →
      runCall dec c st (createVMCall node vmid (some cfg)) resp out =
        { requests := []
          result := .error (.opError ("invalid VMID: " ++ toString vmid))
          state := st }) ∧
    (runCall dec c st (updateVMConfigCall node vmid none) resp out =
      { requests := []
        result := .error (.opError "VMConfigTyped cannot be nil")
        state := st }) := by
  refine ⟨rfl, ?_, rfl⟩
  intro h
  simp [createVMCall, runCall, h]

/-- **C9** witness: `CreateVM` with `vmid = 0` on a concrete client returns
the invalid-VMID error and makes no request. -/
theorem C9_witness :
    runCall decUnit sampleCfgPwd {} (createVMCall "pve1" 0 (some {}))
        ⟨200, RawBody.empty⟩ (some ()) =
      { requests := []
        result := .error (.opError "invalid VMID: 0")
        state := {} } :=
  (C9_argument_guards_fail_without_request decUnit sampleCfgPwd {}
    ⟨200, RawBody.empty⟩ (some ()) "pve1" 0 {}).2.1 (by decide)

/-- **C10**: the field-mapping loop inlined in `GetVMConfig` and the
standalone `ParseQemuVmConfig` produce the same typed config on every raw
map of decoded JSON fields. -/
theorem C10_inline_loop_refines_ParseQemuVmConfig
    (raw : List (String × GoVal)) :
    getVMConfigFold raw = ParseQemuVmConfig raw := rfl

/-- Header lookup on a built request reduces to lookup in the auth block,
for any header the `Accept` line and the caller's extra headers do not
touch. -/
theorem getKV_buildDo (c : ClientCfg) (st : CredState) (method path : String)
    (body : Option (List (String × String))) (extra : List (String × String))
    (csrf : Bool) (k : String) (hk : k ≠ "Accept")
    (hextra : ∀ kv ∈ extra, kv.1 ≠ k) :
    getKV (buildDoRequest c st method path body extra csrf).headers k =
      getKV (authHeaders c st csrf) k := by
  show getKV (extra.foldl (fun hs kv => setKV hs kv.1 kv.2)
    (setKV (authHeaders c st csrf) "Accept" "application/json")) k = _
  rw [getKV_foldl_setKV _ _ _ hextra]
  exact getKV_setKV_other _ _ _ _ (Ne.symm hk)

/-- In token mode the auth block is exactly the one `Authorization`
header. -/
theorem authHeaders_token (c : ClientCfg) (st : CredState) (csrf : Bool)
    (ht : c.authMethod = AuthMethod.token) :
    authHeaders c st csrf =
      [("Authorization", "PVEAPIToken=" ++ c.username ++ "=" ++ c.password)] := by
  simp [authHeaders, ht, setKV]

/-- In password mode with CSRF requested and a non-empty token, the auth
block carries the `CSRFPreventionToken` header with that token. -/
theorem getKV_authHeaders_csrf_pwd_some (c : ClientCfg) (st : CredState)
    (hp : c.authMethod = AuthMethod.password) (hck : st.csrfToken ≠ "") :
    getKV (authHeaders c st true) "CSRFPreventionToken" =
      some st.csrfToken := by
  unfold authHeaders
  rw [hp]
  cases hc : st.authCookie with
  | some ck =>
    simp [hck]
    rw [getKV_setKV_other _ _ "Cookie" _ (by decide)]
    exact getKV_setKV_self _ _ _
  | none =>
    by_cases hticket : st.authTicket = ""
    · simp [hck, hticket]
      exact getKV_setKV_self _ _ _
    · simp [hck, hticket]
      rw [getKV_setKV_other _ _ "Cookie" _ (by decide)]
      exact getKV_setKV_self _ _ _

/-- In password mode with CSRF not requested, the auth block never carries
the `CSRFPreventionToken` header. -/
theorem getKV_authHeaders_csrf_pwd_none (c : ClientCfg) (st : CredState)
    (hp : c.authMethod = AuthMethod.password) :
    getKV (authHeaders c st false) "CSRFPreventionToken" = none := by
  unfold authHeaders
  rw [hp]
  cases hc : st.authCookie with
  | some ck =>
    simp
    rw [getKV_setKV_other _ _ "Cookie" _ (by decide)]
    rfl
  | none =>
    by_cases hticket : st.authTicket = ""
    · simp [hticket]
      rfl
    · simp [hticket]
      rw [getKV_setKV_other _ _ "Cookie" _ (by decide)]
      rfl

/-- In token mode the auth block never carries the `CSRFPreventionToken`
header. -/
theorem getKV_authHeaders_csrf_token (c : ClientCfg) (st : CredState)
    (csrf : Bool) (ht : c.authMethod = AuthMethod.token) :
    getKV (authHeaders c st csrf) "CSRFPreventionToken" = none := by
  rw [authHeaders_token c st csrf ht]
  rfl

/-- `unmarshalInto` defers to the target decoder on every non-null
payload. -/
theorem unmarshalInto_ne_null {α : Type} (dec : Json → α → Except String α)
    (v : Json) (cur : α) (h : v ≠ Json.null) :
    unmarshalInto dec v cur = dec v cur := by
  cases v <;> first | exact absurd rfl h | rfl

/-- **C4** counterexample: a 403 response whose body is not JSON yields an
`APIError` whose errors map is Go's *nil* map (`none` here), not the
non-nil map the claim requires. The status is still carried, but the
"non-nil (possibly empty) errors map" part of the claim is false. -/
theorem C4_counterexample :
    doUnwrap decSample 403 (RawBody.invalid "<html>permission denied</html>")
        (some 0) =
      .error (.apiError 403 none) := rfl

/-- **C4** (amended): for every response with status >= 400 the pipeline
returns an `APIError` carrying exactly that status and the best-effort
errors map: nil (`none`) when the body is not a JSON object with an
object-valued `errors` field — in particular for a malformed body — and
the parsed (possibly empty) map otherwise; a body-parse failure never
masks the status and never propagates as a decode error. -/
theorem C4_apierror_preserves_status_best_effort_errors {α : Type}
    (dec : Json → α → Except String α) (status : Nat) (body : RawBody)
    (out : Option α) (h : 400 ≤ status) :
    doUnwrap dec status body out =
      .error (.apiError status (parseErrors body)) ∧
    (∀ s, parseErrors (RawBody.invalid s) = none) ∧
    parseErrors RawBody.empty = none ∧
    (∀ fields errs, lookupLast "errors" fields = some (Json.obj errs) →
      parseErrors (RawBody.valid (Json.obj fields)) = some errs) := by
  refine ⟨?_, fun s => rfl, rfl, ?_⟩
  · unfold doUnwrap
    rw [if_pos h]
  · intro fields errs hl
    simp [parseErrors, hl]

/-- **C4** witness: a 500 response with a well-formed error envelope
carries status 500 and the parsed errors map. -/
theorem C4_witness :
    doUnwrap decSample 500
        (RawBody.valid
          (Json.obj [("errors", Json.obj [("vmid", Json.str "invalid")])]))
        (some 0) =
      .error (.apiError 500 (some [("vmid", Json.str "invalid")])) :=
  (C4_apierror_preserves_status_best_effort_errors decSample 500
    (RawBody.valid
      (Json.obj [("errors", Json.obj [("vmid", Json.str "invalid")])]))
    (some 0) (by decide)).1

/-- **C7**: for status < 400 with a decode target and a non-empty body the
pipeline parses the `{"data": ...}` envelope; an absent or null `data`
leaves the target untouched with no error; a present payload is decoded
into the target, with a shape mismatch surfacing as a decode error; with
no decode target the body is discarded after the status check and no error
is returned. -/
theorem C7_data_envelope_unwrapping {α : Type}
    (dec : Json → α → Except String α) (status : Nat) (cur : α)
    (fields : List (String × Json)) (v : Json) (e : String) (a : α)
    (hlt : status < 400) :
    (∀ body, doUnwrap dec status body none = .ok none) ∧
    doUnwrap dec status RawBody.empty (some cur) = .ok (some cur) ∧
    (lookupLast "data" fields = none →
      doUnwrap dec status (RawBody.valid (Json.obj fields)) (some cur) =
        .ok (some cur)) ∧
    (lookupLast "data" fields = some Json.null →
      doUnwrap dec status (RawBody.valid (Json.obj fields)) (some cur) =
        .ok (some cur)) ∧
    (lookupLast "data" fields = some v → v ≠ Json.null → dec v cur = .ok a →
      doUnwrap dec status (RawBody.valid (Json.obj fields)) (some cur) =
        .ok (some a)) ∧
    (lookupLast "data" fields = some v → v ≠ Json.null →
      dec v cur = .error e →
      doUnwrap dec status (RawBody.valid (Json.obj fields)) (some cur) =
        .error (.decodeData e)) := by
  have hn : ¬ 400 ≤ status := Nat.not_le.mpr hlt
  refine ⟨?_, ?_, ?_, ?_, ?_, ?_⟩
  · intro body
    unfold doUnwrap
    rw [if_neg hn]
  · unfold doUnwrap
    rw [if_neg hn]
  · intro hl
    unfold doUnwrap
    rw [if_neg hn]
    simp [envelopeData, hl]
  · intro hl
    unfold doUnwrap
    rw [if_neg hn]
    simp [envelopeData, hl, unmarshalInto]
  · intro hl hne hdec
    unfold doUnwrap
    rw [if_neg hn]
    simp [envelopeData, hl, unmarshalInto_ne_null dec v cur hne, hdec]
  · intro hl hne hdec
    unfold doUnwrap
    rw [if_neg hn]
    simp [envelopeData, hl, unmarshalInto_ne_null dec v cur hne, hdec]

/-- **C7** witness: a 200 response with `{"data": null}` and a decode
target leaves the target at its current value and produces no error. -/
theorem C7_witness :
    doUnwrap decSample 200 (RawBody.valid (Json.obj [("data", Json.null)]))
        (some 7) =
      .ok (some 7) :=
  (C7_data_envelope_unwrapping decSample 200 7 [("data", Json.null)]
    Json.null "e" 0 (by decide)).2.2.2.1 rfl

/-- **C6**: when a password-mode login attempt fails — the login HTTP call
returned a non-200 status, or its body failed to decode — `Login` returns
an error and the credential state (ticket, CSRF token, cookie, lastLogin)
is exactly what it was before the attempt. -/
theorem C6_failed_login_leaves_state_unchanged (c : ClientCfg)
    (st : CredState) (now : Int) (resp : LoginResponse)
    (hp : c.authMethod = AuthMethod.password)
    (hinv : credValidb st now c.loginExpiry = false) :
    (resp.status ≠ 200 →
      loginStep c st now resp =
        { result := .error (.loginFailed resp.status)
          state := st
          requests := [loginRequest c] }) ∧
    (resp.status = 200 → decodeLoginBody resp.body = none →
      loginStep c st now resp =
        { result := .error .loginDecode
          state := st
          requests := [loginRequest c] }) := by
  constructor
  · intro hs
    simp [loginStep, hp, hinv, hs]
  · intro hs hd
    simp [loginStep, hp, hinv, hs, hd]

/-- **C6** witness: a 401 on the concrete password client with empty
(expired) credentials yields the failure error and the untouched zero
state. -/
theorem C6_witness :
    loginStep sampleCfgPwd {} 7200 ⟨401, RawBody.invalid "auth failure", []⟩ =
      { result := .error (.loginFailed 401)
        state := {}
        requests := [loginRequest sampleCfgPwd] } :=
  (C6_failed_login_leaves_state_unchanged sampleCfgPwd {} 7200
    ⟨401, RawBody.invalid "auth failure", []⟩ rfl (by decide)).1 (by decide)

/-- **C1** counterexample: a password-mode client whose credential state is
invalid (zero state: no ticket, `lastLogin` expired) and which executes
`StartVM`'s pipeline call dispatches exactly one HTTP request — the
resource request itself, to the VM start endpoint, not to the ticket
endpoint — and leaves the credential state untouched: no fresh login is
triggered on the request path. -/
theorem C1_counterexample :
    (runCall decUnit sampleCfgPwd {} (.ok (startVMCall "pve1" 100))
        ⟨200, RawBody.empty⟩ (some ())).requests =
      [{ method := "POST"
         url := "https://pve:8006/api2/json/nodes/pve1/qemu/100/status/start"
         headers := [("Accept", "application/json")]
         formBody := none }] ∧
    (runCall decUnit sampleCfgPwd {} (.ok (startVMCall "pve1" 100))
        ⟨200, RawBody.empty⟩ (some ())).state = ({} : CredState) :=
  ⟨rfl, rfl⟩

/-- **C1** (amended): the request pipeline never triggers a login — for a
password-mode client with invalid credential state, `do` dispatches only
the resource request it built and leaves the credential state unchanged.
A fresh login happens only when `Login` is invoked explicitly: with
invalid state it performs the login HTTP call, and on a 200 with a
decodable body it installs the fresh ticket, CSRF token, auth cookie and
login time. -/
theorem C1_request_path_does_not_login {α : Type}
    (dec : Json → α → Except String α) (c : ClientCfg) (st : CredState)
    (method path : String) (body : Option (List (String × String)))
    (extra : List (String × String)) (csrf : Bool) (resp : HttpResponse)
    (out : Option α) (now : Int) (lresp : LoginResponse) (t k : String)
    (hp : c.authMethod = AuthMethod.password)
    (hinv : credValidb st now c.loginExpiry = false) :
    (clientDo dec c st method path body extra csrf resp out).requests =
      [buildDoRequest c st method path body extra csrf] ∧
    (clientDo dec c st method path body extra csrf resp out).state = st ∧
    (loginStep c st now lresp).requests = [loginRequest c] ∧
    (lresp.status = 200 → decodeLoginBody lresp.body = some (t, k) →
      loginStep c st now lresp =
        { result := .ok ()
          state :=
            { authTicket := t
              csrfToken := k
              authCookie := findAuthCookie lresp.cookies
              lastLogin := now }
          requests := [loginRequest c] }) := by
  refine ⟨rfl, rfl, ?_, ?_⟩
  · by_cases hs : lresp.status = 200
    · cases hd : decodeLoginBody lresp.body with
      | none => simp [loginStep, hp, hinv, hs, hd]
      | some tk => simp [loginStep, hp, hinv, hs, hd]
    · simp [loginStep, hp, hinv, hs]
  · intro hs hd
    simp [loginStep, hp, hinv, hs, hd]

/-- **C1** witness: on the concrete expired password client, an explicit
`Login` against a successful ticket response installs the fresh
credentials. -/
theorem C1_witness :
    loginStep sampleCfgPwd {} 7200
        ⟨200,
          RawBody.valid
            (Json.obj
              [("data",
                Json.obj
                  [("ticket", Json.str "T1"),
                   ("CSRFPreventionToken", Json.str "K1")])]),
          [⟨"PVEAuthCookie", "T1"⟩]⟩ =
      { result := .ok ()
        state :=
          { authTicket := "T1"
            csrfToken := "K1"
            authCookie := some ⟨"PVEAuthCookie", "T1"⟩
            lastLogin := 7200 }
        requests := [loginRequest sampleCfgPwd] } :=
  (C1_request_path_does_not_login decUnit sampleCfgPwd {} "POST" "/x" none
    [] false ⟨200, RawBody.empty⟩ (some ()) 7200
    ⟨200,
      RawBody.valid
        (Json.obj
          [("data",
            Json.obj
              [("ticket", Json.str "T1"),
               ("CSRFPreventionToken", Json.str "K1")])]),
      [⟨"PVEAuthCookie", "T1"⟩]⟩ "T1" "K1" rfl (by decide)).2.2.2 rfl rfl

/-- **C3** counterexample: `StartVM` is a state-changing operation, yet on
a password-mode client with a non-empty CSRF token its pipeline call
produces a request with *no* `CSRFPreventionToken` header (the source
passes the literal `false` for `csrf`): the full request is the start POST
carrying only the ticket cookie and `Accept`. -/
theorem C3_counterexample :
    (runCall decUnit sampleCfgPwd sampleStAuth (.ok (startVMCall "pve1" 100))
        ⟨200, RawBody.empty⟩ (some ())).requests =
      [{ method := "POST"
         url := "https://pve:8006/api2/json/nodes/pve1/qemu/100/status/start"
         headers := [("Cookie", "PVEAuthCookie=TICKET"),
                     ("Accept", "application/json")]
         formBody := none }] := rfl

/-- **C3** (amended): `CreateVM` and `UpdateVMConfig` invoke the pipeline
with CSRF required, so in password mode with a non-empty CSRF token their
requests carry the `CSRFPreventionToken` header; `StartVM` and `StopVM`
invoke it with CSRF *not* required and so never attach the header, even in
password mode with a token available; token-mode requests never attach
it. -/
theorem C3_csrf_attachment (node : String) (vmid : Int)
    (cfg : ProxmoxQemuVmConfig) (c : ClientCfg) (st : CredState)
    (method path : String) (body : Option (List (String × String)))
    (extra : List (String × String))
    (hextra : ∀ kv ∈ extra, kv.1 ≠ "CSRFPreventionToken") :
    (∀ pc, createVMCall node vmid (some cfg) = .ok pc → pc.csrf = true) ∧
    (∀ pc, updateVMConfigCall node vmid (some cfg) = .ok pc →
      pc.csrf = true) ∧
    (startVMCall node vmid).csrf = false ∧
    (stopVMCall node vmid).csrf = false ∧
    (c.authMethod = AuthMethod.password → st.csrfToken ≠ "" →
      getKV (buildDoRequest c st method path body extra true).headers
          "CSRFPreventionToken" =
        some st.csrfToken) ∧
    (c.authMethod = AuthMethod.password →
      getKV (buildDoRequest c st method path body extra false).headers
          "CSRFPreventionToken" =
        none) ∧
    (c.authMethod = AuthMethod.token → ∀ csrf,
      getKV (buildDoRequest c st method path body extra csrf).headers
          "CSRFPreventionToken" =
        none) := by
  refine ⟨?_, ?_, rfl, rfl, ?_, ?_, ?_⟩
  · intro pc h
    unfold createVMCall at h
    split at h
    · exact Except.noConfusion h
    · split at h
      · exact Except.noConfusion h
      · injection h with h
        subst h
        rfl
  · intro pc h
    unfold updateVMConfigCall at h
    injection h with h
    subst h
    rfl
  · intro hp hck
    rw [getKV_buildDo _ _ _ _ _ _ _ _ (by decide) hextra]
    exact getKV_authHeaders_csrf_pwd_some c st hp hck
  · intro hp
    rw [getKV_buildDo _ _ _ _ _ _ _ _ (by decide) hextra]
    exact getKV_authHeaders_csrf_pwd_none c st hp
  · intro ht csrf
    rw [getKV_buildDo _ _ _ _ _ _ _ _ (by decide) hextra]
    exact getKV_authHeaders_csrf_token c st csrf ht

/-- **C3** witness: the concrete password client with CSRF token
`"CSRFTOK"` attaches it on a CSRF-required request. -/
theorem C3_witness :
    getKV (buildDoRequest sampleCfgPwd sampleStAuth "POST"
        "/api2/json/nodes/pve1/qemu" (some [])
        [("Content-Type", "application/x-www-form-urlencoded")] true).headers
        "CSRFPreventionToken" =
      some "CSRFTOK" :=
  (C3_csrf_attachment "pve1" 100 {} sampleCfgPwd sampleStAuth "POST"
    "/api2/json/nodes/pve1/qemu" (some [])
    [("Content-Type", "application/x-www-form-urlencoded")]
    (by decide)).2.2.2.2.1 rfl (by decide)

/-- In token mode, no sequence of client actions (explicit logins or
requests) ever changes the credential state. -/
theorem execSteps_token (c : ClientCfg) (ht : c.authMethod = AuthMethod.token)
    (st : CredState) (steps : List ClientStep) : execSteps c st steps = st := by
  induction steps generalizing st with
  | nil => rfl
  | cons s rest ih =>
    have hstep : stepState c st s = st := by
      cases s with
      | login now resp => simp [stepState, loginStep, ht]
      | request m p b e k r o => rfl
    rw [show execSteps c st (s :: rest) =
        execSteps c (stepState c st s) rest from rfl, hstep]
    exact ih st

/-- **C5**: for a token-mode client the credential state is never written
or read: `Login` is a no-op returning success without touching state or
the network; `do` leaves the state unchanged and builds a request that
does not depend on the credential state at all, carrying the static
`Authorization` token header and neither `Cookie` nor
`CSRFPreventionToken`; `ListVMs` likewise; and any sequence of client
steps leaves the state exactly where it started (in particular at its zero
value for the client's lifetime). -/
theorem C5_token_mode_credential_state_untouched {α : Type}
    (dec : Json → α → Except String α) (c : ClientCfg) (st st' : CredState)
    (now : Int) (lresp : LoginResponse) (method path : String)
    (body : Option (List (String × String)))
    (extra : List (String × String)) (csrf : Bool) (resp : HttpResponse)
    (out : Option α) (node : String) (full : Bool)
    (steps : List ClientStep) (ht : c.authMethod = AuthMethod.token)
    (hextra : ∀ kv ∈ extra,
      kv.1 ≠ "Authorization" ∧ kv.1 ≠ "Cookie" ∧
        kv.1 ≠ "CSRFPreventionToken") :
    loginStep c st now lresp =
      { result := .ok (), state := st, requests := [] } ∧
    (clientDo dec c st method path body extra csrf resp out).state = st ∧
    buildDoRequest c st method path body extra csrf =
      buildDoRequest c st' method path body extra csrf ∧
    getKV (buildDoRequest c st method path body extra csrf).headers
        "Authorization" =
      some ("PVEAPIToken=" ++ c.username ++ "=" ++ c.password) ∧
    getKV (buildDoRequest c st method path body extra csrf).headers
      "Cookie" = none ∧
    getKV (buildDoRequest c st method path body extra csrf).headers
      "CSRFPreventionToken" = none ∧
    listVMsRequest c st node full = listVMsRequest c st' node full ∧
    (listVMsRequest c st node full).headers =
      [("Authorization", "PVEAPIToken=" ++ c.username ++ "=" ++ c.password)] ∧
    execSteps c st steps = st := by
  refine ⟨by simp [loginStep, ht], rfl, ?_, ?_, ?_, ?_, ?_, ?_,
    execSteps_token c ht st steps⟩
  · simp only [buildDoRequest, authHeaders_token c st csrf ht,
      authHeaders_token c st' csrf ht]
  · rw [getKV_buildDo _ _ _ _ _ _ _ _ (by decide)
      (fun kv hm => (hextra kv hm).1)]
    rw [authHeaders_token c st csrf ht]
    rfl
  · rw [getKV_buildDo _ _ _ _ _ _ _ _ (by decide)
      (fun kv hm => (hextra kv hm).2.1)]
    rw [authHeaders_token c st csrf ht]
    rfl
  · rw [getKV_buildDo _ _ _ _ _ _ _ _ (by decide)
      (fun kv hm => (hextra kv hm).2.2)]
    exact getKV_authHeaders_csrf_token c st csrf ht
  · simp [listVMsRequest, ht]
  · simp [listVMsRequest, ht, setKV]

/-- **C5** witness: a token-mode run of one request and one explicit
`Login` keeps the concrete client's credential state at its zero value. -/
theorem C5_witness :
    execSteps sampleCfgTok {}
        [ClientStep.request "GET" "/api2/json/nodes/pve1/qemu/100/config"
          none [] false ⟨200, RawBody.empty⟩ (some ()),
         ClientStep.login 7200 ⟨200, RawBody.empty, []⟩] =
      ({} : CredState) :=
  (C5_token_mode_credential_state_untouched decUnit sampleCfgTok {} {} 0
    ⟨200, RawBody.empty, []⟩ "GET" "/x" none [] false ⟨200, RawBody.empty⟩
    (some ()) "pve1" false
    [ClientStep.request "GET" "/api2/json/nodes/pve1/qemu/100/config"
      none [] false ⟨200, RawBody.empty⟩ (some ()),
     ClientStep.login 7200 ⟨200, RawBody.empty, []⟩] rfl
    (by simp)).2.2.2.2.2.2.2.2

set_option maxRecDepth 8192 in
/-- No byte, escaped or not, ever contributes a `/` or `?` to an escaped
path segment (checked over all 256 byte values). -/
theorem escapeSegByte_safe_fin :
    ∀ b : Fin 256, ∀ ch ∈ escapeSegByte b.val, ch ≠ '/' ∧ ch ≠ '?' := by
  decide

/-- Every byte of a UTF-8 encoding is below 256. -/
theorem utf8Bytes_lt_256 (c : Char) : ∀ b ∈ utf8Bytes c, b < 256 := by
  have hval : c.toNat < 1114112 := by
    have h := c.valid
    unfold UInt32.isValidChar Nat.isValidChar at h
    rcases h with h | ⟨h1, h2⟩
    · exact Nat.lt_trans h (by norm_num)
    · exact h2
  intro b hb
  simp only [utf8Bytes] at hb
  split_ifs at hb with h1 h2 h3 <;> simp at hb <;> omega

/-- `pathEscape` output can never contain a path separator or a query
delimiter: the untrusted segment cannot inject URL structure. -/
theorem pathEscape_no_structural_chars (s : String) :
    ∀ ch ∈ (pathEscape s).data, ch ≠ '/' ∧ ch ≠ '?' := by
  intro ch hch
  have hmem : ch ∈ (stringUTF8 s).flatMap escapeSegByte := hch
  rw [List.mem_flatMap] at hmem
  obtain ⟨b, hb, hcb⟩ := hmem
  have hb256 : b < 256 := by
    simp only [stringUTF8, List.mem_flatMap] at hb
    obtain ⟨c, hc, hbc⟩ := hb
    exact utf8Bytes_lt_256 c b hbc
  exact escapeSegByte_safe_fin ⟨b, hb256⟩ ch hcb

/-- **C8** counterexample: `ListVMs` interpolates the node name into the
request URL *without* URL-escaping it — for node `"a b"` the URL carries
the raw `a b` and differs from the URL built with the escaped segment. -/
theorem C8_counterexample :
    (listVMsRequest sampleCfgPwd sampleStAuth "a b" false).url =
      "https://pve:8006/api2/json/nodes/a b/qemu?full=0" ∧
    (listVMsRequest sampleCfgPwd sampleStAuth "a b" false).url ≠
      "https://pve:8006/api2/json/nodes/" ++ pathEscape "a b" ++
        "/qemu?full=0" :=
  ⟨rfl, by decide⟩

/-- **C8** (amended): `CreateVM`, `GetVMConfig`, `StartVM`, `StopVM` and
`UpdateVMConfig` all build their request paths with the node segment
passed through `url.PathEscape` — whose output can contain no `/` or `?`,
so the untrusted name cannot inject path structure — but `ListVMs` builds
its URL with the raw, unescaped node name. -/
theorem C8_node_escaping (node : String) (vmid : Int)
    (cfg : ProxmoxQemuVmConfig) (c : ClientCfg) (st : CredState)
    (full : Bool) :
    (∀ pc, createVMCall node vmid (some cfg) = .ok pc →
      pc.path = apiNodesPath ++ "/" ++ pathEscape node ++ "/qemu") ∧
    (getVMConfigCall node vmid).path =
      apiNodesPath ++ "/" ++ pathEscape node ++ "/qemu/" ++ toString vmid ++
        "/config" ∧
    (startVMCall node vmid).path =
      apiNodesPath ++ "/" ++ pathEscape node ++ "/qemu/" ++ toString vmid ++
        apiVmStartSubPath ∧
    (stopVMCall node vmid).path =
      apiNodesPath ++ "/" ++ pathEscape node ++ "/qemu/" ++ toString vmid ++
        apiVmStopSubPath ∧
    (∀ pc, updateVMConfigCall node vmid (some cfg) = .ok pc →
      pc.path = apiNodesPath ++ "/" ++ pathEscape node ++ "/qemu/" ++
        toString vmid ++ "/config") ∧
    (∀ ch ∈ (pathEscape node).data, ch ≠ '/' ∧ ch ≠ '?') ∧
    (listVMsRequest c st node full).url =
      c.baseURL ++ "/api2/json/nodes/" ++ node ++ "/qemu?full=" ++
        (if full then "1" else "0") := by
  refine ⟨?_, rfl, rfl, rfl, ?_, pathEscape_no_structural_chars node, ?_⟩
  · intro pc h
    unfold createVMCall at h
    split at h
    · exact Except.noConfusion h
    · split at h
      · exact Except.noConfusion h
      · injection h with h
        subst h
        rfl
  · intro pc h
    unfold updateVMConfigCall at h
    injection h with h
    subst h
    rfl
  · cases full <;> rfl

/-- **C8** witness: for a node name containing a space, `StartVM`'s path
uses the escaped segment and that segment contains no `/`. -/
theorem C8_witness :
    (startVMCall "a b" 100).path =
      apiNodesPath ++ "/" ++ pathEscape "a b" ++ "/qemu/" ++
        toString (100 : Int) ++ apiVmStartSubPath :=
  (C8_node_escaping "a b" 100 {} sampleCfgPwd sampleStAuth false).2.2.1

end ProxmoxClient
